import Mathlib

/-!
Shallow embedding of the MRMS GRIB2 decoding core
(`server/grib2Parser.js` and the geographic sampling step of
`server/mrmsService.js`) and proofs about its stated properties.

Byte buffers are modelled as `List ℕ` (each entry one byte, 0..255).
Numeric decoding is modelled over `ℚ` (the idealisation of the
JavaScript floating-point arithmetic the source performs).
Fallible computations return `Except Err` mirroring `throw`.
-/

/-- Error kinds surfaced by the decoder (one constructor per distinct
`throw` site of the source). -/
inductive Err where
  | formatError : Err
  | unsupportedEdition : ℕ → Err
  | rangeError : Err
  | missingSection : ℕ → Err
  | invalidGridSection : Err
  | unsupportedBits : ℕ → Err
  | unsupportedTemplate : ℕ → Err
  | compressedPayload : Err
deriving DecidableEq

/-- Equality of decode results is decidable (used to settle concrete
evaluations). -/
instance {e a : Type} [DecidableEq e] [DecidableEq a] :
    DecidableEq (Except e a) := fun x y =>
  match x, y with
  | .error u, .error v =>
      if h : u = v then isTrue (by rw [h])
      else isFalse (by intro hh; cases hh; exact h rfl)
  | .ok u, .ok v =>
      if h : u = v then isTrue (by rw [h])
      else isFalse (by intro hh; cases hh; exact h rfl)
  | .error _, .ok _ => isFalse (fun hh => Except.noConfusion hh)
  | .ok _, .error _ => isFalse (fun hh => Except.noConfusion hh)

/-- `buf.readUInt8(off)` when the call site guarantees the offset is in
range (out-of-range offsets never occur on these call paths). -/
def readU8 (l : List ℕ) (off : ℕ) : ℕ := l.getD off 0

/-- `buf.readUInt16BE(off)` when the call site guarantees the offsets are
in range. -/
def readU16 (l : List ℕ) (off : ℕ) : ℕ :=
  256 * l.getD off 0 + l.getD (off + 1) 0

/-- `buf.readUInt32BE(off)` when the call site guarantees the offsets are
in range. -/
def readU32 (l : List ℕ) (off : ℕ) : ℕ :=
  16777216 * l.getD off 0 + 65536 * l.getD (off + 1) 0 +
    256 * l.getD (off + 2) 0 + l.getD (off + 3) 0

/-- `buf.readUInt8(off)` with the bounds check Node performs
(a `RangeError` is thrown out of range, modelled as `none`). -/
def readU8? (l : List ℕ) (off : ℕ) : Option ℕ :=
  if off + 1 ≤ l.length then some (readU8 l off) else none

/-- Bounds-checked `buf.readUInt16BE(off)`. -/
def readU16? (l : List ℕ) (off : ℕ) : Option ℕ :=
  if off + 2 ≤ l.length then some (readU16 l off) else none

/-- Bounds-checked `buf.readUInt32BE(off)`. -/
def readU32? (l : List ℕ) (off : ℕ) : Option ℕ :=
  if off + 4 ≤ l.length then some (readU32 l off) else none

/-- Reinterpret a 16-bit unsigned value as two-complement signed
(`buf.readInt16BE`). -/
def toInt16 (v : ℕ) : ℤ :=
  if v < 32768 then (v : ℤ) else (v : ℤ) - 65536

/-- Reinterpret a 32-bit unsigned value as two-complement signed
(`buf.readInt32BE`). -/
def toInt32 (v : ℕ) : ℤ :=
  if v < 2147483648 then (v : ℤ) else (v : ℤ) - 4294967296

/-- Bounds-checked `buf.readInt16BE(off)`. -/
def readI16? (l : List ℕ) (off : ℕ) : Option ℤ :=
  (readU16? l off).map toInt16

/-- Bounds-checked `buf.readInt32BE(off)`. -/
def readI32? (l : List ℕ) (off : ℕ) : Option ℤ :=
  (readU32? l off).map toInt32

/-- Bounds-checked `buf.readFloatBE(off)`; the numeric value of the
decoded IEEE-754 binary32 is abstracted by the parameter `floatVal`
(the decoded float is idealised as a rational). -/
def readFloat? (floatVal : List ℕ → ℕ → ℚ) (l : List ℕ) (off : ℕ) : Option ℚ :=
  if off + 4 ≤ l.length then some (floatVal l off) else none

/-- Grid geometry decoded from section 3 (`parseLatLonGrid` result shape). -/
structure Grid where
  nx : ℕ
  ny : ℕ
  la1 : ℤ
  lo1 : ℤ
  la2 : ℤ
  lo2 : ℤ
  dx : ℤ
  dy : ℤ
deriving DecidableEq

/-- The hard-coded CONUS default geometry returned by `parseLatLonGrid`
when the section is too short or a read fails. -/
def conusDefault : Grid :=
  { nx := 7000, ny := 3500,
    la1 := 54500000, lo1 := -127000000,
    la2 := 20000000, lo2 := -60000000,
    dx := 10000, dy := 10000 }

/-- `parseLatLonGrid(section)`.  The source wraps its reads in
`try/catch` and returns the CONUS defaults on any failure; the only
failure paths are the explicit `length < 72` throw and out-of-range
reads, and every read offset (30..70) is in range once `length ≥ 72`,
so the function collapses to this conditional.  The basic-angle and
subdivision reads at offsets 38 and 42 are performed but unused by the
source and are omitted here (they cannot fail when `length ≥ 72`). -/
def parseLatLonGrid (s : List ℕ) : Grid :=
  if s.length < 72 then conusDefault
  else
    { nx := readU32 s 30, ny := readU32 s 34,
      la1 := toInt32 (readU32 s 46), lo1 := toInt32 (readU32 s 50),
      la2 := toInt32 (readU32 s 55), lo2 := toInt32 (readU32 s 59),
      dx := toInt32 (readU32 s 63), dy := toInt32 (readU32 s 67) }

/-- `parseGridDefinitionSection(section)`.  An absent section or one
shorter than 14 bytes throws (modelled as `Err.invalidGridSection`);
otherwise the grid-template number at bytes 12..13 is read, but every
template value leads to the same `parseLatLonGrid` call, so the result
does not depend on it. -/
def parseGridDefinitionSection (s? : Option (List ℕ)) : Except Err Grid :=
  match s? with
  | none => .error .invalidGridSection
  | some s =>
      if s.length < 14 then .error .invalidGridSection
      else .ok (parseLatLonGrid s)

/-- Packing parameters decoded from section 5
(`parseDataRepresentationSection` result shape).  Fields that the
source leaves absent on some branches (read later through `|| 0`) are
`Option`-valued. -/
structure DataRep where
  template : ℕ
  referenceValue : Option ℚ
  binaryScaleFactor : Option ℤ
  decimalScaleFactor : Option ℤ
  bitsPerValue : ℕ
deriving DecidableEq

/-- The record returned for an absent or short representation section
(note: no reference value is set by the source on this branch). -/
def dataRepDefault : DataRep :=
  { template := 0, referenceValue := none,
    binaryScaleFactor := some 0, decimalScaleFactor := some 0,
    bitsPerValue := 16 }

/-- `parseDataRepresentationSection(section)`.  Templates 0 and 41 read
the reference value, the two scale factors and the bit width at fixed
offsets (reads at offsets 11..19 can throw when `11 ≤ length < 20`,
modelled as `Err.rangeError`); any other template yields a degraded
record with only a bit width of 16. -/
def parseDataRepresentationSection (floatVal : List ℕ → ℕ → ℚ)
    (s? : Option (List ℕ)) : Except Err DataRep :=
  match s? with
  | none => .ok dataRepDefault
  | some s =>
      if s.length < 11 then .ok dataRepDefault
      else if readU16 s 9 = 0 ∨ readU16 s 9 = 41 then
        match readFloat? floatVal s 11, readI16? s 15, readI16? s 17,
            readU8? s 19 with
        | some r, some b, some d, some bits =>
            .ok { template := readU16 s 9, referenceValue := some r,
                  binaryScaleFactor := some b,
                  decimalScaleFactor := some d, bitsPerValue := bits }
        | _, _, _, _ => .error .rangeError
      else
        .ok { template := readU16 s 9, referenceValue := none,
              binaryScaleFactor := none, decimalScaleFactor := none,
              bitsPerValue := 16 }

/-- A decoded image, as produced by the third-party `pngjs` library from
the raw data-section bytes.  The library is third-party and is
abstracted as a function parameter `png` of the decoder; `none` models
a decode failure (`PNG.sync.read` throwing). -/
structure PngImage where
  width : ℕ
  height : ℕ
  data : List ℕ
deriving DecidableEq

/-- The per-raw-value scaling, bounding and rounding shared by every
decode branch of `parseDataSection`: physical value
`(reference + raw * 2^binaryScale) / 10^decimalScale`, kept (rounded to
one decimal place) when within -50..100 and `null` otherwise.  Absent
scale fields are read through `|| 0` in the source, modelled by
`Option.getD 0`. -/
def scaleAndBound (dr : DataRep) (raw : ℕ) : Option ℚ :=
  let v := (dr.referenceValue.getD 0 +
      (raw : ℚ) * (2 : ℚ) ^ (dr.binaryScaleFactor.getD 0)) /
      (10 : ℚ) ^ (dr.decimalScaleFactor.getD 0)
  if -50 ≤ v ∧ v ≤ 100 then some ((round (v * 10) : ℚ) / 10) else none

/-- One 16-bit raw value: 0 and 65535 are missing-value sentinels. -/
def decodeRaw16 (dr : DataRep) (raw : ℕ) : Option ℚ :=
  if raw = 0 ∨ raw = 65535 then none else scaleAndBound dr raw

/-- One 8-bit raw value: 0 and 255 are missing-value sentinels. -/
def decodeRaw8 (dr : DataRep) (raw : ℕ) : Option ℚ :=
  if raw = 0 ∨ raw = 255 then none else scaleAndBound dr raw

/-- `new Array(total).fill(null)` followed by a loop writing slots
`0..maxPoints-1` with `f`: slot `i` holds `f i` when `i < maxPoints`
and stays `null` otherwise. -/
def fillSlots (total maxPoints : ℕ) (f : ℕ → Option ℚ) : List (Option ℚ) :=
  (List.range total).map (fun i => if i < maxPoints then f i else none)

/-- `parseDataSection(section, dataRep, gridDef)` (the value decoder).
An absent section or one shorter than 6 bytes returns `[]` (with only a
console warning).  Otherwise the payload after the 5-byte sub-header is
decoded according to the representation template:
template 41 decodes the payload as PNG (failure throws, modelled as
`Err.compressedPayload`) and combines the first two bytes of each RGBA
pixel into a 16-bit raw value; template 0 reads consecutive 16-bit or
8-bit raw values, throwing on any other bit width; any other template
throws. -/
def parseDataSection (png : List ℕ → Option PngImage)
    (s? : Option (List ℕ)) (dr : DataRep) (g : Grid) :
    Except Err (List (Option ℚ)) :=
  match s? with
  | none => .ok []
  | some s =>
      if s.length < 6 then .ok []
      else if dr.template = 41 then
        match png (s.drop 5) with
        | none => .error .compressedPayload
        | some img =>
            .ok (fillSlots (g.nx * g.ny)
              (min (g.nx * g.ny) (img.width * img.height)) (fun i =>
                if 4 * i + 1 < img.data.length then
                  decodeRaw16 dr
                    (256 * img.data.getD (4 * i) 0 +
                      img.data.getD (4 * i + 1) 0)
                else none))
      else if dr.template = 0 then
        if dr.bitsPerValue = 16 then
          .ok (fillSlots (g.nx * g.ny)
            (min (g.nx * g.ny) ((s.drop 5).length / 2)) (fun i =>
              decodeRaw16 dr (readU16 (s.drop 5) (2 * i))))
        else if dr.bitsPerValue = 8 then
          .ok (fillSlots (g.nx * g.ny)
            (min (g.nx * g.ny) (s.drop 5).length) (fun i =>
              decodeRaw8 dr (readU8 (s.drop 5) i)))
        else .error (.unsupportedBits dr.bitsPerValue)
      else .error (.unsupportedTemplate dr.template)

/-- A labelled, length-delimited section produced by the scan loop. -/
structure RawSection where
  offset : ℕ
  length : ℕ
  data : List ℕ
deriving DecidableEq

/-- `buffer.slice(off, off + len)` (the scan loop only slices with
`off + len ≤ buffer.length`, so the clamping of `slice` is inert). -/
def sectionSlice (buf : List ℕ) (off len : ℕ) : List ℕ :=
  (buf.drop off).take len

/-- The section-scanning `while` loop of `parseMRMSGrib2`.  The
source caps the loop at 20 iterations through `sectionCount < 20`;
`fuel` is `20 - sectionCount`, making the recursion structural.  Each
step requires `offset < buffer.length - 4`, reads a 4-byte length and a
1-byte identifier (both in range under that condition), stops on a zero
length, a length larger than the buffer, or a slice past the buffer
end, records the section (newest first, so lookups see the last
occurrence, as JavaScript object assignment overwrites), and stops
after recording the terminal section 8. -/
def scanLoop (buf : List ℕ) : ℕ → ℕ → List (ℕ × RawSection) →
    List (ℕ × RawSection)
  | 0, _, acc => acc
  | fuel + 1, offset, acc =>
      if offset + 4 < buf.length then
        if readU32 buf offset = 0 ∨ buf.length < readU32 buf offset ∨
            buf.length < offset + readU32 buf offset then
          acc
        else
          if readU8 buf (offset + 4) = 8 then
            (readU8 buf (offset + 4), RawSection.mk offset (readU32 buf offset)
              (sectionSlice buf offset (readU32 buf offset))) :: acc
          else
            scanLoop buf fuel (offset + readU32 buf offset)
              ((readU8 buf (offset + 4), RawSection.mk offset
                (readU32 buf offset)
                (sectionSlice buf offset (readU32 buf offset))) :: acc)
      else acc

/-- The number of loop iterations `scanLoop` performs (an iteration that
hits a break condition after its reads counts as one). -/
def scanIters (buf : List ℕ) : ℕ → ℕ → ℕ
  | 0, _ => 0
  | fuel + 1, offset =>
      if offset + 4 < buf.length then
        if readU32 buf offset = 0 ∨ buf.length < readU32 buf offset ∨
            buf.length < offset + readU32 buf offset then
          1
        else if readU8 buf (offset + 4) = 8 then 1
        else 1 + scanIters buf fuel (offset + readU32 buf offset)
      else 0

/-- `sections[n]`: the most recently recorded section with identifier
`n` (the accumulator is newest-first). -/
def lookupSec (l : List (ℕ × RawSection)) (n : ℕ) : Option RawSection :=
  (l.find? (fun p => p.1 == n)).map (fun p => p.2)

/-- The record returned by `parseMRMSGrib2`. -/
structure Parsed where
  discipline : ℕ
  gridDefinition : Grid
  values : List (Option ℚ)
  parameterCategory : ℕ
  parameterNumber : ℕ
deriving DecidableEq

/-- The four bytes of the ASCII magic marker GRIB. -/
def gribMagic : List ℕ := [71, 82, 73, 66]

/-- The magic-marker comparison `buffer.toString(ascii, 0, 4) === GRIB`.
Node 7-bit ASCII decoding clears the high bit of every byte before
comparing, modelled by `% 128`. -/
def headerIsGrib (buf : List ℕ) : Prop :=
  (buf.take 4).map (fun b => b % 128) = gribMagic

instance (buf : List ℕ) : Decidable (headerIsGrib buf) := by
  unfold headerIsGrib; infer_instance

/-- `parseMRMSGrib2(buffer)`: magic-marker check, edition check
(byte 7), discipline read (byte 6), message-length read (bytes 8..15,
which throws when the buffer is shorter than 16 bytes), section scan
from offset 16 capped at 20 iterations, mandatory-section checks for
sections 3, 5 and 7, the three section decoders, and the optional
parameter bytes of section 4. -/
def parseMRMSGrib2 (floatVal : List ℕ → ℕ → ℚ)
    (png : List ℕ → Option PngImage) (buf : List ℕ) : Except Err Parsed :=
  if ¬ headerIsGrib buf then .error .formatError
  else
    match readU8? buf 7 with
    | none => .error .rangeError
    | some edition =>
        if edition ≠ 2 then .error (.unsupportedEdition edition)
        else
          let discipline := readU8 buf 6
          if buf.length < 16 then .error .rangeError
          else
            let sections := scanLoop buf 20 16 []
            match lookupSec sections 3 with
            | none => .error (.missingSection 3)
            | some s3 =>
                match lookupSec sections 5 with
                | none => .error (.missingSection 5)
                | some s5 =>
                    match lookupSec sections 7 with
                    | none => .error (.missingSection 7)
                    | some s7 =>
                        match parseGridDefinitionSection (some s3.data) with
                        | .error e => .error e
                        | .ok gridDef =>
                            match parseDataRepresentationSection floatVal
                                (some s5.data) with
                            | .error e => .error e
                            | .ok dataRep =>
                                match parseDataSection png (some s7.data)
                                    dataRep gridDef with
                                | .error e => .error e
                                | .ok values =>
                                    match lookupSec sections 4 with
                                    | none =>
                                        .ok (Parsed.mk discipline gridDef
                                          values 0 0)
                                    | some s4 =>
                                        match readU8? s4.data 9,
                                            readU8? s4.data 10 with
                                        | some pc, some pn =>
                                            .ok (Parsed.mk discipline
                                              gridDef values pc pn)
                                        | _, _ => .error .rangeError

/-- `parsedData.values.filter(v => v !== null && v !== undefined).length`. -/
def validCount (vs : List (Option ℚ)) : ℕ :=
  (vs.filter (fun v => v.isSome)).length

/-- `hasValidData(parsedData)` (the validity gate): `false` for an
absent record or an empty value array, otherwise true exactly when the
percentage of non-missing slots exceeds 1. -/
def hasValidData (pd : Option Parsed) : Bool :=
  match pd with
  | none => false
  | some p =>
      if p.values.length = 0 then false
      else decide (1 < (validCount p.values : ℚ) / (p.values.length : ℚ) * 100)

/-- A geo-tagged sample emitted by the geographic sampler of
`parseGRIB2Data` in `mrmsService.js`. -/
structure GeoSample where
  lat : ℚ
  lon : ℚ
  val : ℚ
deriving DecidableEq

/-- The longitude normalisation of the sampler: subtract 360 only when
the value is strictly greater than 180. -/
def normLon (x : ℚ) : ℚ := if 180 < x then x - 360 else x

/-- The indices visited by `for (let i = 0; i < n; i += 4)`. -/
def strideIdxs (n : ℕ) : List ℕ :=
  (List.range n).filter (fun i => i % 4 = 0)

/-- The geographic sampling loop of `parseGRIB2Data`
(`mrmsService.js`): rows and columns at stride 4, keeping cells whose
value is present and strictly greater than -30, emitting
latitude `la1/1e6 - i*dy/1e6`, normalised longitude
`lo1/1e6 + j*dx/1e6`, and the value rounded to one decimal place.
An index past the end of the value array reads as `undefined` in the
source and is dropped by the presence test, modelled by `getD _ none`. -/
def sampleGrid (g : Grid) (values : List (Option ℚ)) : List GeoSample :=
  (strideIdxs g.ny).flatMap (fun i =>
    (strideIdxs g.nx).filterMap (fun j =>
      match values.getD (i * g.nx + j) none with
      | none => none
      | some v =>
          if -30 < v then
            some (GeoSample.mk
              ((g.la1 : ℚ) / 1000000 - ((i : ℚ) * (g.dy : ℚ)) / 1000000)
              (normLon ((g.lo1 : ℚ) / 1000000 +
                ((j : ℚ) * (g.dx : ℚ)) / 1000000))
              ((round (v * 10) : ℚ) / 10))
          else none))

theorem fillSlots_length (t m : ℕ) (f : ℕ → Option ℚ) :
    (fillSlots t m f).length = t := by
  simp [fillSlots]

theorem fillSlots_getD_of_ge (t m i : ℕ) (f : ℕ → Option ℚ) (h : m ≤ i) :
    (fillSlots t m f).getD i none = none := by
  rcases lt_or_ge i t with hi | hi
  · rw [List.getD_eq_getElem?_getD]
    unfold fillSlots
    rw [List.getElem?_map]
    simp [List.getElem?_range, hi, Nat.not_lt.mpr h]
  · exact List.getD_eq_default _ _ (by simpa [fillSlots_length] using hi)

theorem fillSlots_getD_of_lt (t m i : ℕ) (f : ℕ → Option ℚ) (him : i < m)
    (hit : i < t) : (fillSlots t m f).getD i none = f i := by
  rw [List.getD_eq_getElem?_getD]
  unfold fillSlots
  rw [List.getElem?_map]
  simp [List.getElem?_range, hit, him]

theorem parseDataSection_simple16 (png : List ℕ → Option PngImage)
    (s : List ℕ) (dr : DataRep) (g : Grid) (h6 : 6 ≤ s.length)
    (ht : dr.template = 0) (hb : dr.bitsPerValue = 16) :
    parseDataSection png (some s) dr g =
      .ok (fillSlots (g.nx * g.ny) (min (g.nx * g.ny) ((s.length - 5) / 2))
        (fun i => decodeRaw16 dr (readU16 (s.drop 5) (2 * i)))) := by
  simp only [parseDataSection]
  rw [if_neg (by omega : ¬ s.length < 6), if_neg (by omega : ¬ dr.template = 41),
    if_pos ht, if_pos hb, List.length_drop]

theorem parseDataSection_simple8 (png : List ℕ → Option PngImage)
    (s : List ℕ) (dr : DataRep) (g : Grid) (h6 : 6 ≤ s.length)
    (ht : dr.template = 0) (hb : dr.bitsPerValue = 8) :
    parseDataSection png (some s) dr g =
      .ok (fillSlots (g.nx * g.ny) (min (g.nx * g.ny) (s.length - 5))
        (fun i => decodeRaw8 dr (readU8 (s.drop 5) i))) := by
  simp only [parseDataSection]
  rw [if_neg (by omega : ¬ s.length < 6), if_neg (by omega : ¬ dr.template = 41),
    if_pos ht, if_neg (by omega : ¬ dr.bitsPerValue = 16), if_pos hb,
    List.length_drop]

theorem parseDataSection_ok_length (png : List ℕ → Option PngImage)
    (s : List ℕ) (dr : DataRep) (g : Grid) (vs : List (Option ℚ))
    (h6 : 6 ≤ s.length) (hok : parseDataSection png (some s) dr g = .ok vs) :
    vs.length = g.nx * g.ny := by
  simp only [parseDataSection] at hok
  rw [if_neg (by omega : ¬ s.length < 6)] at hok
  by_cases h41 : dr.template = 41
  · rw [if_pos h41] at hok
    cases hpng : png (s.drop 5) with
    | none => rw [hpng] at hok; cases hok
    | some img =>
        rw [hpng] at hok
        cases hok
        exact fillSlots_length _ _ _
  · rw [if_neg h41] at hok
    by_cases h0 : dr.template = 0
    · rw [if_pos h0] at hok
      by_cases hb16 : dr.bitsPerValue = 16
      · rw [if_pos hb16] at hok
        cases hok
        exact fillSlots_length _ _ _
      · rw [if_neg hb16] at hok
        by_cases hb8 : dr.bitsPerValue = 8
        · rw [if_pos hb8] at hok
          cases hok
          exact fillSlots_length _ _ _
        · rw [if_neg hb8] at hok; cases hok
    · rw [if_neg h0] at hok; cases hok

/-- C1: for every data section that is present and at least 6 bytes
long, any value array the value decoder returns has exactly
`nx * ny` slots; and for simple packing with bit width 16, a data
buffer too short to fill all slots is not an error: decoding succeeds
and every slot at or past the number of decodable raw values stays
missing (`none`). -/
theorem c1_dense_grid_length_and_truncation :
    (∀ (png : List ℕ → Option PngImage) (s : List ℕ) (dr : DataRep)
      (g : Grid) (vs : List (Option ℚ)), 6 ≤ s.length →
      parseDataSection png (some s) dr g = .ok vs →
      vs.length = g.nx * g.ny) ∧
    (∀ (png : List ℕ → Option PngImage) (s : List ℕ) (dr : DataRep)
      (g : Grid), 6 ≤ s.length → dr.template = 0 → dr.bitsPerValue = 16 →
      ∃ vs, parseDataSection png (some s) dr g = .ok vs ∧
        vs.length = g.nx * g.ny ∧
        ∀ i, min (g.nx * g.ny) ((s.length - 5) / 2) ≤ i →
          vs.getD i none = none) := by
  constructor
  · exact parseDataSection_ok_length
  · intro png s dr g h6 ht hb
    refine ⟨_, parseDataSection_simple16 png s dr g h6 ht hb,
      fillSlots_length _ _ _, ?_⟩
    intro i hi
    exact fillSlots_getD_of_ge _ _ _ _ hi

/-- C1 witness: a 2-point grid with a 7-byte data section (one decodable
16-bit raw value) decodes without error to a 2-slot array whose second
slot is missing. -/
theorem c1_witness :
    ∃ vs, parseDataSection (fun _ => none)
        (some [0, 0, 0, 0, 0, 0, 100])
        (DataRep.mk 0 (some 0) (some 0) (some 0) 16)
        (Grid.mk 2 1 0 0 0 0 0 0) = .ok vs ∧
      vs.length = 2 ∧ vs.getD 1 none = none := by
  obtain ⟨vs, hok, hlen, htrail⟩ :=
    c1_dense_grid_length_and_truncation.2 (fun _ => none)
      [0, 0, 0, 0, 0, 0, 100] (DataRep.mk 0 (some 0) (some 0) (some 0) 16)
      (Grid.mk 2 1 0 0 0 0 0 0) (by decide) rfl rfl
  exact ⟨vs, hok, hlen, htrail 1 (by decide)⟩

/-- C9: when the data section is absent or shorter than 6 bytes, the
value decoder returns the empty array (length 0) rather than an array
of `nx * ny` missing slots, so the `nx * ny` length invariant fails in
this degenerate case whenever `nx * ny > 0`. -/
theorem c9_empty_data_section :
    (∀ (png : List ℕ → Option PngImage) (dr : DataRep) (g : Grid),
      parseDataSection png none dr g = .ok []) ∧
    (∀ (png : List ℕ → Option PngImage) (s : List ℕ) (dr : DataRep)
      (g : Grid), s.length < 6 → parseDataSection png (some s) dr g = .ok []) ∧
    (∀ (png : List ℕ → Option PngImage) (s : List ℕ) (dr : DataRep)
      (g : Grid), s.length < 6 → 0 < g.nx * g.ny →
      ∀ vs, parseDataSection png (some s) dr g = .ok vs →
        vs.length ≠ g.nx * g.ny) := by
  refine ⟨fun png dr g => rfl, ?_, ?_⟩
  · intro png s dr g h
    simp only [parseDataSection]
    rw [if_pos h]
  · intro png s dr g h hpos vs hok
    simp only [parseDataSection] at hok
    rw [if_pos h] at hok
    cases hok
    simpa using Nat.ne_of_lt hpos

/-- C9 witness: a 5-byte data section on a 1-point grid yields the
empty array, whose length differs from `nx * ny = 1`. -/
theorem c9_witness :
    parseDataSection (fun _ => none) (some [7, 0, 0, 0, 0])
      dataRepDefault (Grid.mk 1 1 0 0 0 0 0 0) = .ok [] ∧
    ∀ vs, parseDataSection (fun _ => none) (some [7, 0, 0, 0, 0])
        dataRepDefault (Grid.mk 1 1 0 0 0 0 0 0) = .ok vs →
      vs.length ≠ 1 := by
  refine ⟨c9_empty_data_section.2.1 (fun _ => none) [7, 0, 0, 0, 0]
    dataRepDefault (Grid.mk 1 1 0 0 0 0 0 0) (by decide), ?_⟩
  intro vs hok
  exact c9_empty_data_section.2.2 (fun _ => none) [7, 0, 0, 0, 0]
    dataRepDefault (Grid.mk 1 1 0 0 0 0 0 0) (by decide) (by decide) vs hok

/-- C2: for simple packing with bit width 16, each decodable slot `i`
holds exactly the source formula: raw values 0 and 65535 decode to
missing; any other raw value yields
`(reference + raw * 2^binaryScale) / 10^decimalScale`, kept (rounded to
one decimal place) when within -50..100 and missing otherwise.  The
analogous statement holds for bit width 8 with sentinels 0 and 255. -/
theorem c2_simple_packing_decode :
    (∀ (png : List ℕ → Option PngImage) (s : List ℕ) (dr : DataRep)
      (g : Grid) (i : ℕ), 6 ≤ s.length → dr.template = 0 →
      dr.bitsPerValue = 16 →
      i < min (g.nx * g.ny) ((s.length - 5) / 2) →
      ∃ vs, parseDataSection png (some s) dr g = .ok vs ∧
        vs.getD i none =
          (if readU16 (s.drop 5) (2 * i) = 0 ∨
              readU16 (s.drop 5) (2 * i) = 65535 then none
          else
            if -50 ≤ (dr.referenceValue.getD 0 +
                  (readU16 (s.drop 5) (2 * i) : ℚ) *
                    (2 : ℚ) ^ (dr.binaryScaleFactor.getD 0)) /
                  (10 : ℚ) ^ (dr.decimalScaleFactor.getD 0) ∧
                (dr.referenceValue.getD 0 +
                  (readU16 (s.drop 5) (2 * i) : ℚ) *
                    (2 : ℚ) ^ (dr.binaryScaleFactor.getD 0)) /
                  (10 : ℚ) ^ (dr.decimalScaleFactor.getD 0) ≤ 100 then
              some ((round (((dr.referenceValue.getD 0 +
                (readU16 (s.drop 5) (2 * i) : ℚ) *
                  (2 : ℚ) ^ (dr.binaryScaleFactor.getD 0)) /
                (10 : ℚ) ^ (dr.decimalScaleFactor.getD 0)) * 10) : ℚ) / 10)
            else none)) ∧
    (∀ (png : List ℕ → Option PngImage) (s : List ℕ) (dr : DataRep)
      (g : Grid) (i : ℕ), 6 ≤ s.length → dr.template = 0 →
      dr.bitsPerValue = 8 →
      i < min (g.nx * g.ny) (s.length - 5) →
      ∃ vs, parseDataSection png (some s) dr g = .ok vs ∧
        vs.getD i none =
          (if readU8 (s.drop 5) i = 0 ∨ readU8 (s.drop 5) i = 255 then none
          else
            if -50 ≤ (dr.referenceValue.getD 0 +
                  (readU8 (s.drop 5) i : ℚ) *
                    (2 : ℚ) ^ (dr.binaryScaleFactor.getD 0)) /
                  (10 : ℚ) ^ (dr.decimalScaleFactor.getD 0) ∧
                (dr.referenceValue.getD 0 +
                  (readU8 (s.drop 5) i : ℚ) *
                    (2 : ℚ) ^ (dr.binaryScaleFactor.getD 0)) /
                  (10 : ℚ) ^ (dr.decimalScaleFactor.getD 0) ≤ 100 then
              some ((round (((dr.referenceValue.getD 0 +
                (readU8 (s.drop 5) i : ℚ) *
                  (2 : ℚ) ^ (dr.binaryScaleFactor.getD 0)) /
                (10 : ℚ) ^ (dr.decimalScaleFactor.getD 0)) * 10) : ℚ) / 10)
            else none)) := by
  constructor
  · intro png s dr g i h6 ht hb hi
    refine ⟨_, parseDataSection_simple16 png s dr g h6 ht hb, ?_⟩
    rw [fillSlots_getD_of_lt _ _ _ _ hi (lt_of_lt_of_le hi (min_le_left _ _))]
    simp only [decodeRaw16, scaleAndBound]
  · intro png s dr g i h6 ht hb hi
    refine ⟨_, parseDataSection_simple8 png s dr g h6 ht hb, ?_⟩
    rw [fillSlots_getD_of_lt _ _ _ _ hi (lt_of_lt_of_le hi (min_le_left _ _))]
    simp only [decodeRaw8, scaleAndBound]

/-- C2 witness: on a concrete 7-byte section, raw value 100 with zero
scales decodes to 100.0 in slot 0. -/
theorem c2_witness :
    ∃ vs, parseDataSection (fun _ => none)
        (some [0, 0, 0, 0, 0, 0, 100])
        (DataRep.mk 0 (some 0) (some 0) (some 0) 16)
        (Grid.mk 2 1 0 0 0 0 0 0) = .ok vs ∧
      vs.getD 0 none = some 100 := by
  obtain ⟨vs, hok, hval⟩ :=
    c2_simple_packing_decode.1 (fun _ => none) [0, 0, 0, 0, 0, 0, 100]
      (DataRep.mk 0 (some 0) (some 0) (some 0) 16)
      (Grid.mk 2 1 0 0 0 0 0 0) 0 (by decide) rfl rfl (by decide)
  refine ⟨vs, hok, ?_⟩
  rw [hval]
  norm_num [readU16]

/-- C10: the validity gate rejects an absent parse result and an empty
value array, so whenever it accepts, the value array is non-empty and
the validity fraction was not a division by zero. -/
theorem c10_validity_gate_empty :
    hasValidData none = false ∧
    (∀ p : Parsed, p.values = [] → hasValidData (some p) = false) ∧
    (∀ pd : Option Parsed, hasValidData pd = true →
      ∃ p, pd = some p ∧ p.values.length ≠ 0) := by
  refine ⟨rfl, ?_, ?_⟩
  · intro p h
    simp only [hasValidData]
    rw [if_pos (by simp [h])]
  · intro pd h
    match pd with
    | none => cases h
    | some p =>
        refine ⟨p, rfl, ?_⟩
        intro hlen
        simp only [hasValidData] at h
        rw [if_pos hlen] at h
        cases h

/-- C10 witness: the gate rejects a concrete record with an empty value
array. -/
theorem c10_witness :
    hasValidData (some (Parsed.mk 0 conusDefault [] 0 0)) = false :=
  c10_validity_gate_empty.2.1 (Parsed.mk 0 conusDefault [] 0 0) rfl

/-- C4: the validity gate accepts exactly when the fraction of
non-missing slots is strictly above 1 percent; in particular 0
non-missing slots out of 1000 are rejected and 50 out of 1000 are
accepted. -/
theorem c4_validity_gate_threshold :
    (∀ p : Parsed, hasValidData (some p) = true ↔
      p.values ≠ [] ∧ (1 : ℚ) / 100 <
        (validCount p.values : ℚ) / (p.values.length : ℚ)) ∧
    hasValidData (some (Parsed.mk 0 conusDefault
      (List.replicate 1000 none) 0 0)) = false ∧
    hasValidData (some (Parsed.mk 0 conusDefault
      (List.replicate 50 (some 1) ++ List.replicate 950 none) 0 0)) = true := by
  have hiff : ∀ p : Parsed, hasValidData (some p) = true ↔
      p.values ≠ [] ∧ (1 : ℚ) / 100 <
        (validCount p.values : ℚ) / (p.values.length : ℚ) := by
    intro p
    simp only [hasValidData]
    by_cases h : p.values.length = 0
    · rw [if_pos h]
      simp [List.length_eq_zero.mp h]
    · rw [if_neg h]
      rw [decide_eq_true_eq]
      have hlen : (0 : ℚ) < (p.values.length : ℚ) := by
        exact_mod_cast Nat.pos_of_ne_zero h
      constructor
      · intro hlt
        refine ⟨fun hnil => h (by simp [hnil]), by linarith⟩
      · intro hc
        linarith [hc.2]
  refine ⟨hiff, ?_, ?_⟩
  · rw [Bool.eq_false_iff]
    intro habs
    have hc := (hiff _).mp habs
    have h0 : validCount (List.replicate 1000 (none : Option ℚ)) = 0 := by
      unfold validCount
      rw [List.filter_replicate]
      simp
    rw [h0] at hc
    have := hc.2
    norm_num at this
  · rw [(hiff _)]
    have h50 : validCount (List.replicate 50 (some (1 : ℚ)) ++
        List.replicate 950 none) = 50 := by
      unfold validCount
      rw [List.filter_append, List.filter_replicate, List.filter_replicate]
      simp
    have hlen : (List.replicate 50 (some (1 : ℚ)) ++
        List.replicate 950 none).length = 1000 := by
      rw [List.length_append, List.length_replicate, List.length_replicate]
    refine ⟨?_, ?_⟩
    · intro hnil
      have hnil2 : (List.replicate 50 (some (1 : ℚ)) ++
          List.replicate 950 none) = [] := hnil
      rw [hnil2] at hlen
      cases hlen
    · rw [h50, hlen]
      norm_num

/-- C4 witness: instantiating the acceptance characterisation at the
accepted 50-of-1000 grid yields its validity fraction strictly above
1 percent. -/
theorem c4_witness :
    (List.replicate 50 (some (1 : ℚ)) ++ List.replicate 950 none) ≠ [] ∧
    (1 : ℚ) / 100 <
      (validCount (List.replicate 50 (some 1) ++ List.replicate 950 none) : ℚ) /
        ((List.replicate 50 (some (1 : ℚ)) ++ List.replicate 950 none).length : ℚ) :=
  (c4_validity_gate_threshold.1 (Parsed.mk 0 conusDefault
    (List.replicate 50 (some 1) ++ List.replicate 950 none) 0 0)).mp
    c4_validity_gate_threshold.2.2

/-- C5 counterexample: a grid section of 13 bytes (shorter than the
14-byte minimum the decoder checks first) makes the grid decoder throw
`Err.invalidGridSection` instead of returning the default geometry, so
grid-geometry malformation can produce an error. -/
theorem c5_grid_default_cex :
    parseGridDefinitionSection (some (List.replicate 13 0)) =
      .error .invalidGridSection ∧
    parseGridDefinitionSection none = .error .invalidGridSection ∧
    (Except.error Err.invalidGridSection : Except Err Grid) ≠
      .ok conusDefault := by
  refine ⟨rfl, rfl, ?_⟩
  intro h
  exact Except.noConfusion h

/-- C5 (amended): a grid-section payload of at least 14 bytes that is
shorter than the 72 bytes the lat/lon template needs degrades to the
documented default continental geometry; but an absent payload, or one
shorter than 14 bytes, raises an invalid-grid-section error rather than
degrading. -/
theorem c5_grid_default :
    (∀ s : List ℕ, 14 ≤ s.length → s.length < 72 →
      parseGridDefinitionSection (some s) = .ok conusDefault) ∧
    (∀ s : List ℕ, s.length < 14 →
      parseGridDefinitionSection (some s) = .error .invalidGridSection) ∧
    parseGridDefinitionSection none = .error .invalidGridSection := by
  refine ⟨?_, ?_, rfl⟩
  · intro s h14 h72
    simp only [parseGridDefinitionSection]
    rw [if_neg (by omega : ¬ s.length < 14)]
    unfold parseLatLonGrid
    rw [if_pos h72]
  · intro s h
    simp only [parseGridDefinitionSection]
    rw [if_pos h]

/-- C5 witness: a concrete 20-byte grid section degrades to the default
geometry. -/
theorem c5_witness :
    parseGridDefinitionSection (some (List.replicate 20 0)) =
      .ok conusDefault :=
  c5_grid_default.1 (List.replicate 20 0) (by decide) (by decide)

/-- C6 counterexample: under image-channel packing (template 41) the
bit width is never consulted, so a packing-parameter record with bit
width 12 decodes successfully (given a decodable embedded image)
instead of failing with an unsupported-packing error. -/
theorem c6_unsupported_packing_cex :
    parseDataSection (fun _ => some (PngImage.mk 1 1 [0, 1, 0, 0]))
      (some [0, 0, 0, 0, 0, 0])
      (DataRep.mk 41 (some 0) (some 0) (some 0) 12)
      (Grid.mk 1 1 0 0 0 0 0 0) = .ok [some 1] ∧
    (DataRep.mk 41 (some 0) (some 0) (some 0) 12).bitsPerValue ≠ 8 ∧
    (DataRep.mk 41 (some 0) (some 0) (some 0) 12).bitsPerValue ≠ 16 := by
  refine ⟨?_, by decide, by decide⟩
  simp only [parseDataSection]
  norm_num [fillSlots, List.range_succ, decodeRaw16, scaleAndBound]

/-- C6 (amended): under simple packing (template 0) any bit width other
than 8 or 16 fails with an unsupported-packing error; every
representation template other than 0 and 41 produces degraded
parameters (bit width 16, no scale information) and the value decoder
fails cleanly on such a record rather than produce a value array; but
under template 41 the bit width is not consulted, so an unsupported bit
width does not by itself cause failure. -/
theorem c6_unsupported_packing :
    (∀ (png : List ℕ → Option PngImage) (s : List ℕ) (dr : DataRep)
      (g : Grid), 6 ≤ s.length → dr.template = 0 → dr.bitsPerValue ≠ 16 →
      dr.bitsPerValue ≠ 8 →
      parseDataSection png (some s) dr g =
        .error (.unsupportedBits dr.bitsPerValue)) ∧
    (∀ (png : List ℕ → Option PngImage) (s : List ℕ) (dr : DataRep)
      (g : Grid), 6 ≤ s.length → dr.template ≠ 0 → dr.template ≠ 41 →
      parseDataSection png (some s) dr g =
        .error (.unsupportedTemplate dr.template)) ∧
    (∀ (floatVal : List ℕ → ℕ → ℚ) (s : List ℕ), 11 ≤ s.length →
      readU16 s 9 ≠ 0 → readU16 s 9 ≠ 41 →
      parseDataRepresentationSection floatVal (some s) =
        .ok (DataRep.mk (readU16 s 9) none none none 16)) := by
  refine ⟨?_, ?_, ?_⟩
  · intro png s dr g h6 ht h16 h8
    simp only [parseDataSection]
    rw [if_neg (by omega : ¬ s.length < 6),
      if_neg (by omega : ¬ dr.template = 41), if_pos ht, if_neg h16,
      if_neg h8]
  · intro png s dr g h6 h0 h41
    simp only [parseDataSection]
    rw [if_neg (by omega : ¬ s.length < 6), if_neg h41, if_neg h0]
  · intro floatVal s h11 h0 h41
    simp only [parseDataRepresentationSection]
    rw [if_neg (by omega : ¬ s.length < 11),
      if_neg (by simp [h0, h41] : ¬ (readU16 s 9 = 0 ∨ readU16 s 9 = 41))]

/-- C6 witness: bit width 12 under simple packing fails with the
unsupported-packing error on a concrete section. -/
theorem c6_witness :
    parseDataSection (fun _ => none) (some (List.replicate 6 0))
      (DataRep.mk 0 none none none 12) (Grid.mk 1 1 0 0 0 0 0 0) =
      .error (.unsupportedBits 12) :=
  c6_unsupported_packing.1 (fun _ => none) (List.replicate 6 0)
    (DataRep.mk 0 none none none 12) (Grid.mk 1 1 0 0 0 0 0 0)
    (by decide) rfl (by decide) (by decide)

/-- C3 counterexample: a cell whose decoded longitude is exactly 180 is
emitted unchanged (the sampler shifts only longitudes strictly greater
than 180), so an emitted longitude can fail to lie in the half-open
interval from -180 inclusive to 180 exclusive. -/
theorem c3_longitude_normalization_cex :
    sampleGrid (Grid.mk 1 1 0 180000000 0 0 0 0) [some 0] =
      [GeoSample.mk 0 180 0] ∧
    ¬ ((GeoSample.mk (0 : ℚ) 180 0).lon < 180) := by
  constructor
  · simp only [sampleGrid, strideIdxs]
    norm_num [List.range_succ, List.filterMap_cons, List.getD_cons_zero,
      normLon]
  · norm_num

/-- C3 (amended): the sampler shifts a decoded longitude by exactly
-360 only when it is strictly greater than 180; when the decoded
longitude lies in the 0..360 system the emitted longitude lies in the
interval from -180 exclusive to 180 inclusive; and every emitted
longitude is the normalisation of a decoded column longitude. -/
theorem c3_longitude_normalization :
    (∀ x : ℚ, 180 < x → normLon x = x - 360) ∧
    (∀ x : ℚ, 0 ≤ x → x < 360 → -180 < normLon x ∧ normLon x ≤ 180) ∧
    (∀ (g : Grid) (vs : List (Option ℚ)) (s : GeoSample),
      s ∈ sampleGrid g vs →
      ∃ j : ℕ, s.lon = normLon ((g.lo1 : ℚ) / 1000000 +
        ((j : ℚ) * (g.dx : ℚ)) / 1000000)) := by
  refine ⟨?_, ?_, ?_⟩
  · intro x h
    simp [normLon, h]
  · intro x h0 h360
    unfold normLon
    split_ifs with h
    · constructor <;> linarith
    · constructor <;> linarith
  · intro g vs s hs
    simp only [sampleGrid, List.mem_flatMap, List.mem_filterMap] at hs
    obtain ⟨i, _, j, _, hbody⟩ := hs
    refine ⟨j, ?_⟩
    split at hbody
    · cases hbody
    · split at hbody
      · cases hbody
        rfl
      · cases hbody

/-- C3 witness: a decoded longitude of 190 is shifted to -170, which
lies strictly between -180 and 180. -/
theorem c3_witness :
    normLon 190 = 190 - 360 ∧ (-180 < normLon 190 ∧ normLon 190 ≤ 180) :=
  ⟨c3_longitude_normalization.1 190 (by norm_num),
    c3_longitude_normalization.2.1 190 (by norm_num) (by norm_num)⟩

/-- C7 counterexample: the magic check decodes the first four bytes as
7-bit ASCII, which clears the high bit of each byte, so a buffer whose
raw first four bytes are not GRIB (first byte 199 instead of 71) still
passes the magic check and proceeds to the edition check, failing with
an unsupported-edition error instead of a format error. -/
theorem c7_magic_and_edition_cex :
    [199, 82, 73, 66, 0, 0, 0, 3].take 4 ≠ gribMagic ∧
    parseMRMSGrib2 (fun _ _ => 0) (fun _ => none)
      [199, 82, 73, 66, 0, 0, 0, 3] = .error (.unsupportedEdition 3) ∧
    Err.unsupportedEdition 3 ≠ Err.formatError := by
  exact ⟨by decide, by decide, by decide⟩

/-- C7 (amended): a buffer whose first four bytes, after clearing the
high bit of each byte (7-bit ASCII decoding), are not GRIB fails with a
format error regardless of the rest of the buffer, hence before any
section scanning; and a buffer that passes the magic check and has at
least 8 bytes fails with an unsupported-edition error whenever its
edition byte (offset 7) is not 2, likewise before any scanning. -/
theorem c7_magic_and_edition :
    (∀ (floatVal : List ℕ → ℕ → ℚ) (png : List ℕ → Option PngImage)
      (buf : List ℕ), ¬ headerIsGrib buf →
      parseMRMSGrib2 floatVal png buf = .error .formatError) ∧
    (∀ (floatVal : List ℕ → ℕ → ℚ) (png : List ℕ → Option PngImage)
      (buf : List ℕ) (e : ℕ), headerIsGrib buf → readU8? buf 7 = some e →
      e ≠ 2 → parseMRMSGrib2 floatVal png buf =
        .error (.unsupportedEdition e)) := by
  constructor
  · intro floatVal png buf h
    simp only [parseMRMSGrib2]
    rw [if_pos h]
  · intro floatVal png buf e hgrib hread hne
    simp only [parseMRMSGrib2]
    rw [if_neg (not_not_intro hgrib), hread]
    simp only [hne]
    rw [if_pos hne]

/-- C7 witness: the malformed marker ABCD fails with a format error. -/
theorem c7_witness :
    parseMRMSGrib2 (fun _ _ => 0) (fun _ => none) [65, 66, 67, 68] =
      .error .formatError :=
  c7_magic_and_edition.1 (fun _ _ => 0) (fun _ => none) [65, 66, 67, 68]
    (by decide)

/-- C8: the section scan is bounded and checks the buffer on every
step: its iteration count never exceeds the fuel (the source caps the
loop at 20 iterations), a step whose 5-byte header would not fit inside
the buffer stops the scan, a declared section length of zero stops the
scan, a declared length reading past the buffer end stops the scan, and
a section identified as the terminal marker 8 stops the scan right
after being recorded. -/
theorem c8_scan_termination :
    (∀ (buf : List ℕ) (fuel offset : ℕ), scanIters buf fuel offset ≤ fuel) ∧
    (∀ (buf : List ℕ) (fuel offset : ℕ) (acc : List (ℕ × RawSection)),
      buf.length ≤ offset + 4 → scanLoop buf fuel offset acc = acc) ∧
    (∀ (buf : List ℕ) (fuel offset : ℕ) (acc : List (ℕ × RawSection)),
      readU32 buf offset = 0 → scanLoop buf fuel offset acc = acc) ∧
    (∀ (buf : List ℕ) (fuel offset : ℕ) (acc : List (ℕ × RawSection)),
      buf.length < offset + readU32 buf offset →
      scanLoop buf fuel offset acc = acc) ∧
    (∀ (buf : List ℕ) (fuel offset : ℕ) (acc : List (ℕ × RawSection)),
      offset + 4 < buf.length → readU32 buf offset ≠ 0 →
      ¬ buf.length < readU32 buf offset →
      ¬ buf.length < offset + readU32 buf offset →
      readU8 buf (offset + 4) = 8 →
      scanLoop buf (fuel + 1) offset acc =
        (8, RawSection.mk offset (readU32 buf offset)
          (sectionSlice buf offset (readU32 buf offset))) :: acc) := by
  refine ⟨?_, ?_, ?_, ?_, ?_⟩
  · intro buf fuel
    induction fuel with
    | zero => intro offset; simp [scanIters]
    | succ n ih =>
        intro offset
        simp only [scanIters]
        split_ifs
        · omega
        · omega
        · have := ih (offset + readU32 buf offset)
          omega
        · omega
  · intro buf fuel offset acc h
    cases fuel with
    | zero => simp [scanLoop]
    | succ n =>
        simp only [scanLoop]
        rw [if_neg (by omega)]
  · intro buf fuel offset acc h
    cases fuel with
    | zero => simp [scanLoop]
    | succ n =>
        simp only [scanLoop]
        split_ifs <;> first | rfl | omega
  · intro buf fuel offset acc h
    cases fuel with
    | zero => simp [scanLoop]
    | succ n =>
        simp only [scanLoop]
        split_ifs <;> first | rfl | omega
  · intro buf fuel offset acc h4 h0 hlen hpast h8
    simp only [scanLoop]
    rw [if_pos h4, if_neg (by omega), if_pos h8, h8]

/-- C8 witness: on the empty buffer the scan performs no iteration and
returns the accumulator unchanged, and the iteration count respects the
cap of 20. -/
theorem c8_witness :
    scanLoop [] 20 16 [] = [] ∧ scanIters [] 20 16 ≤ 20 :=
  ⟨c8_scan_termination.2.1 [] 20 16 [] (by decide),
    c8_scan_termination.1 [] 20 16⟩
